import Mathlib

/-!
Shallow embedding of the chatbot_hack retrieval question-answering service.

Embedded source functions:
- `models/qa_engine.py`: `QAEngine.get_answer` (as `getAnswer`);
- `models/document_processor.py`: `DocumentProcessor.process_document_from_url`
  (as `processDocumentFromUrl`, including the file-extension dispatch taken from
  `os.path.splitext(doc_url.split('?')[0])[-1].lower()`) and
  `DocumentProcessor.create_vector_store` (as `createVectorStore`);
- `models/__init__.py`: `PDFProcessor.process_pdf_from_url` (as `processPdfFromUrl`)
  and the identical `create_vector_store`;
- `app.py`: the `/api/v1/hackrx/run` handler `process_questions_from_pdf`
  (as `processQuestionsFromPdf`), with its in-memory vector-store cache and the
  batched question loop `for i in range(0, len(all_questions), batch_size)`
  (as `rangeStep` / `processQuestions`).

External effects are supplied as explicit environments: the HTTP download
outcome (`DownloadOutcome`), the parser outcome, the FAISS build outcome and
the per-question RetrievalQA chain outcome (`ChainOutcome`).  The temporary
file of a fetch is modelled by an explicit `TempFS` state threaded through the
function, with the `finally` block embedded as `cleanupTemp`.
-/

namespace ChatbotHack

/-- A FAISS vector store, abstracted to an identifier (its contents are never
inspected by the code under verification). -/
structure VectorStore where
  vid : Nat
deriving DecidableEq

/-- Outcome of building and running the RetrievalQA chain on one question
inside the `try` block of `QAEngine.get_answer`: either some exception was
raised (with its `str(e)` text), or the chain returned a result dict whose
`"result"` key held the given optional string. -/
inductive ChainOutcome where
  | raised (msg : String)
  | returned (resultField : Option String)

/-- `QAEngine.get_answer(vector_store, question)`: returns the fixed error
string when the store is falsy, otherwise returns the chain's `"result"`
value (with the literal default when the key is missing), and converts any
exception into the `"Error processing question: ..."` string. -/
def getAnswer (vectorStore : Option VectorStore) (question : String)
    (outcome : ChainOutcome) : String :=
  match vectorStore with
  | none => "Error: Vector store is not available."
  | some _ =>
    match outcome with
    | .raised e => "Error processing question: " ++ e
    | .returned (some r) => r
    | .returned none => "No answer could be generated."

/-- Index of the last occurrence of `c` in a character list (`str.rfind`). -/
def lastIdx (c : Char) : List Char → Option Nat
  | [] => none
  | x :: xs =>
    match lastIdx c xs with
    | some n => some (n + 1)
    | none => if x = c then some 0 else none

/-- Characters after the last `/`, i.e. the final path component that
`os.path.splitext` inspects. -/
def basenameOf (l : List Char) : List Char :=
  match lastIdx '/' l with
  | none => l
  | some i => l.drop (i + 1)

/-- Extension part of `os.path.splitext` on a basename: the suffix from the
last dot, unless every character before that dot is itself a dot (leading
dots are skipped, so `.bashrc` has no extension). -/
def extFromBasename (b : List Char) : List Char :=
  match lastIdx '.' b with
  | none => []
  | some d => if (b.take d).any (fun ch => ch != '.') then b.drop d else []

/-- `doc_url.split('?')[0]`: the characters before the first `?`. -/
def stripQuery (url : String) : List Char :=
  url.data.takeWhile (fun c => c != '?')

/-- Extension of an already query-stripped character list, lower-cased. -/
def extOfStripped (l : List Char) : String :=
  ⟨(extFromBasename (basenameOf l)).map Char.toLower⟩

/-- `file_extension = os.path.splitext(doc_url.split('?')[0])[-1].lower()`
from `DocumentProcessor.process_document_from_url`. -/
def getFileExtension (docUrl : String) : String :=
  extOfStripped (stripQuery docUrl)

/-- The loader classes `DocumentProcessor.process_document_from_url` can
instantiate. -/
inductive Loader where
  | pyPDFLoader
  | unstructuredWordDocumentLoader
deriving DecidableEq

/-- The loader dispatch of `DocumentProcessor.process_document_from_url`:
`.pdf` selects `PyPDFLoader`, `.doc`/`.docx` select
`UnstructuredWordDocumentLoader`, anything else raises
`ValueError(f"Unsupported file type: {file_extension}")`. -/
def chooseLoader (ext : String) : Except String Loader :=
  if ext = ".pdf" then .ok .pyPDFLoader
  else if ext = ".doc" ∨ ext = ".docx" then .ok .unstructuredWordDocumentLoader
  else .error ("Unsupported file type: " ++ ext)

/-- Outcome of `requests.get(url, timeout=30)`: either the call itself raised
a `RequestException` (timeout, connection error), or it produced a final
response with the given status code; `errText` is the `str` of the
`HTTPError` that `raise_for_status` would raise for that response. -/
inductive DownloadOutcome where
  | netError (msg : String)
  | response (status : Nat) (errText : String)

/-- Environment of one fetch operation: the download outcome and the outcome
of `loader.load()` followed by `split_documents` (chunks, or the text of the
parser exception). -/
structure FetchEnv where
  download : DownloadOutcome
  parse : Except String (List String)

/-- The exceptions a fetch can terminate with: the re-raised `RuntimeError`
of the `except requests.exceptions.RequestException` handler, the
`ValueError` for an unsupported extension, or an uncaught parser exception. -/
inductive DocError where
  | runtimeError (msg : String)
  | valueError (msg : String)
  | parseError (msg : String)
deriving DecidableEq

/-- `str(e)` of a `DocError`. -/
def docErrorText : DocError → String
  | .runtimeError m => m
  | .valueError m => m
  | .parseError m => m

/-- State of the fetch's temporary file: whether the local variable
`temp_path` is bound and whether the file exists on disk. -/
structure TempFS where
  tempPathDefined : Bool
  tempExists : Bool
deriving DecidableEq

/-- State before the `with tempfile.NamedTemporaryFile(...)` block runs. -/
def noTempFile : TempFS := ⟨false, false⟩

/-- State after the `with` block wrote the download content to disk. -/
def tempFileWritten : TempFS := ⟨true, true⟩

/-- The `finally` block:
`if 'temp_path' in locals() and os.path.exists(temp_path): os.unlink(temp_path)`. -/
def cleanupTemp (fs : TempFS) : TempFS :=
  if fs.tempPathDefined && fs.tempExists then { fs with tempExists := false } else fs

/-- `response.raise_for_status()` raises `HTTPError` exactly for status codes
in `[400, 600)`. -/
def raiseForStatus (status : Nat) : Bool :=
  decide (400 ≤ status ∧ status < 600)

/-- Observable trace of one fetch: its result (chunks or exception), the
temporary-file state at exit, whether `loader.load()` was reached, and the
timeout passed to `requests.get`. -/
structure FetchTrace where
  result : Except DocError (List String)
  fs : TempFS
  parseAttempted : Bool
  timeout : Nat

/-- `DocumentProcessor.process_document_from_url(doc_url)`: computes the
extension, downloads with `timeout=30`, `raise_for_status`, writes the bytes
to a temporary file, dispatches on the extension, parses and splits; the
`finally` block (`cleanupTemp`) runs on every exit path. -/
def processDocumentFromUrl (docUrl : String) (env : FetchEnv) : FetchTrace :=
  match env.download with
  | .netError e =>
    { result := .error (.runtimeError
        ("Failed to download document from URL: " ++ docUrl ++ ". Error: " ++ e)),
      fs := cleanupTemp noTempFile, parseAttempted := false, timeout := 30 }
  | .response status errText =>
    if raiseForStatus status then
      { result := .error (.runtimeError
          ("Failed to download document from URL: " ++ docUrl ++ ". Error: " ++ errText)),
        fs := cleanupTemp noTempFile, parseAttempted := false, timeout := 30 }
    else
      match chooseLoader (getFileExtension docUrl) with
      | .error m =>
        { result := .error (.valueError m),
          fs := cleanupTemp tempFileWritten, parseAttempted := false, timeout := 30 }
      | .ok _ =>
        match env.parse with
        | .error m =>
          { result := .error (.parseError m),
            fs := cleanupTemp tempFileWritten, parseAttempted := true, timeout := 30 }
        | .ok splits =>
          { result := .ok splits,
            fs := cleanupTemp tempFileWritten, parseAttempted := true, timeout := 30 }

/-- `PDFProcessor.process_pdf_from_url(pdf_url)` from `models/__init__.py`:
same download / temporary-file / `finally` structure but always parses with
`PyPDFLoader` (no extension dispatch). -/
def processPdfFromUrl (pdfUrl : String) (env : FetchEnv) : FetchTrace :=
  match env.download with
  | .netError e =>
    { result := .error (.runtimeError
        ("Failed to download PDF from URL: " ++ pdfUrl ++ ". Error: " ++ e)),
      fs := cleanupTemp noTempFile, parseAttempted := false, timeout := 30 }
  | .response status errText =>
    if raiseForStatus status then
      { result := .error (.runtimeError
          ("Failed to download PDF from URL: " ++ pdfUrl ++ ". Error: " ++ errText)),
        fs := cleanupTemp noTempFile, parseAttempted := false, timeout := 30 }
    else
      match env.parse with
      | .error m =>
        { result := .error (.parseError m),
          fs := cleanupTemp tempFileWritten, parseAttempted := true, timeout := 30 }
      | .ok splits =>
        { result := .ok splits,
          fs := cleanupTemp tempFileWritten, parseAttempted := true, timeout := 30 }

/-- `create_vector_store(documents)`: returns `None` for an empty list,
otherwise `FAISS.from_documents` (abstracted by the `build` outcome), with
any exception re-raised as a `RuntimeError`. -/
def createVectorStore (documents : List String) (build : Except String VectorStore) :
    Except String (Option VectorStore) :=
  if documents.isEmpty then .ok none
  else
    match build with
    | .ok v => .ok (some v)
    | .error e => .error ("Failed to create FAISS vector store. Error: " ++ e)

/-- Python's `range(start, stop, step)` for a positive step. -/
def rangeStep (start stop step : Nat) : List Nat :=
  if h : start < stop ∧ 0 < step then
    start :: rangeStep (start + step) stop step
  else []
termination_by stop - start
decreasing_by omega

/-- One batch of the question loop:
`[qa_engine.get_answer(vector_store, q) for q in all_questions[i:i+batch_size]]`
(with `asyncio.gather` preserving task order). -/
def answerBatch (answerOne : String → String) (qs : List String)
    (batchSize i : Nat) : List String :=
  ((qs.drop i).take batchSize).map answerOne

/-- The batched question loop of `process_questions_from_pdf`:
`for i in range(0, len(all_questions), batch_size): ... all_answers.extend(batch_answers)`. -/
def processQuestions (answerOne : String → String) (qs : List String)
    (batchSize : Nat) : List String :=
  (rangeStep 0 qs.length batchSize).foldl
    (fun acc i => acc ++ answerBatch answerOne qs batchSize i) []

/-- The module-level `vector_store_cache: Dict[str, FAISS]`, modelled as an
association list whose most recent insertion shadows older ones (matching
dict assignment and lookup). -/
abbrev Cache := List (String × Option VectorStore)

/-- `doc_url in vector_store_cache` / `vector_store_cache[doc_url]`. -/
def cacheLookup : Cache → String → Option (Option VectorStore)
  | [], _ => none
  | (k, v) :: rest, key => if key = k then some v else cacheLookup rest key

/-- `vector_store_cache[doc_url] = vector_store`. -/
def cacheInsert (c : Cache) (key : String) (v : Option VectorStore) : Cache :=
  (key, v) :: c

/-- Environment of one request: fetch environment for
`pdf_processor.process_pdf_from_url`, outcome of `FAISS.from_documents`, and
the chain outcome for each question. -/
structure AppEnv where
  fetch : FetchEnv
  build : Except String VectorStore
  chain : String → ChainOutcome

/-- The HTTP reply of the handler: status code, the `answers` body on
success, the `detail` body of a raised `HTTPException`. -/
structure HttpReply where
  status : Nat
  answers : Option (List String)
  detail : Option String

/-- Observable outcome of one request: the reply, the cache afterwards, and
how many times the fetcher and the index builder were invoked. -/
structure HandlerOutcome where
  reply : HttpReply
  cache : Cache
  fetchCalls : Nat
  buildCalls : Nat

/-- The `/api/v1/hackrx/run` handler `process_questions_from_pdf` of
`app.py`: cache lookup; on a miss, fetch, 400 on zero chunks, build, cache
insert; then the batched question loop with `batch_size = 50`.  The
`except HTTPException` clause re-raises the 400; the generic `except`
converts any other exception into a 500 with
`f"An internal server error occurred: {str(e)}"`. -/
def processQuestionsFromPdf (cache : Cache) (docUrl : String)
    (questions : List String) (env : AppEnv) : HandlerOutcome :=
  match cacheLookup cache docUrl with
  | some vs =>
    { reply := { status := 200,
                 answers := some (processQuestions
                   (fun q => getAnswer vs q (env.chain q)) questions 50),
                 detail := none },
      cache := cache, fetchCalls := 0, buildCalls := 0 }
  | none =>
    match (processPdfFromUrl docUrl env.fetch).result with
    | .error e =>
      { reply := { status := 500, answers := none,
                   detail := some ("An internal server error occurred: "
                     ++ docErrorText e) },
        cache := cache, fetchCalls := 1, buildCalls := 0 }
    | .ok documents =>
      if documents.isEmpty then
        { reply := { status := 400, answers := none,
                     detail := some "Failed to process the PDF document. It might be empty or corrupted." },
          cache := cache, fetchCalls := 1, buildCalls := 0 }
      else
        match createVectorStore documents env.build with
        | .error e =>
          { reply := { status := 500, answers := none,
                       detail := some ("An internal server error occurred: " ++ e) },
            cache := cache, fetchCalls := 1, buildCalls := 1 }
        | .ok vsOpt =>
          { reply := { status := 200,
                       answers := some (processQuestions
                         (fun q => getAnswer vsOpt q (env.chain q)) questions 50),
                       detail := none },
            cache := cacheInsert cache docUrl vsOpt, fetchCalls := 1, buildCalls := 1 }

/-- The document pipeline of a request succeeds: either the URL is cached, or
the fetch returns a non-empty chunk list and the index build succeeds. -/
def pipelineSucceeds (cache : Cache) (docUrl : String) (env : AppEnv) : Prop :=
  (∃ vs, cacheLookup cache docUrl = some vs)
  ∨ (∃ docs, (processPdfFromUrl docUrl env.fetch).result = .ok docs ∧ docs ≠ []
      ∧ ∃ v, env.build = .ok v)

/-! ### Helper lemmas -/

theorem rangeStep_stop (start stop step : Nat) (h : ¬ start < stop) :
    rangeStep start stop step = [] := by
  unfold rangeStep
  rw [dif_neg]
  intro hc
  exact h hc.1

theorem rangeStep_cons (start stop step : Nat) (h1 : start < stop) (h2 : 0 < step) :
    rangeStep start stop step = start :: rangeStep (start + step) stop step := by
  conv_lhs => unfold rangeStep
  rw [dif_pos ⟨h1, h2⟩]

theorem foldl_batches (answerOne : String → String) (qs : List String)
    (batchSize : Nat) (hbs : 0 < batchSize) :
    ∀ fuel s acc, qs.length - s ≤ fuel →
      (rangeStep s qs.length batchSize).foldl
          (fun a i => a ++ answerBatch answerOne qs batchSize i) acc
        = acc ++ (qs.drop s).map answerOne := by
  intro fuel
  induction fuel with
  | zero =>
    intro s acc hle
    have hs : qs.length ≤ s := by omega
    rw [rangeStep_stop _ _ _ (by omega), List.drop_eq_nil_of_le hs]
    simp
  | succ n ih =>
    intro s acc hle
    by_cases hlt : s < qs.length
    · rw [rangeStep_cons _ _ _ hlt hbs, List.foldl_cons,
        ih (s + batchSize) (acc ++ answerBatch answerOne qs batchSize s) (by omega),
        List.append_assoc]
      congr 1
      have hdd : qs.drop (s + batchSize) = (qs.drop s).drop batchSize := by
        rw [List.drop_drop, Nat.add_comm]
      rw [answerBatch, hdd, ← List.map_append, List.take_append_drop]
    · rw [rangeStep_stop _ _ _ hlt, List.drop_eq_nil_of_le (by omega)]
      simp

theorem processQuestions_eq_map (answerOne : String → String) (qs : List String)
    (batchSize : Nat) (hbs : 0 < batchSize) :
    processQuestions answerOne qs batchSize = qs.map answerOne := by
  have h := foldl_batches answerOne qs batchSize hbs qs.length 0 [] (by omega)
  simpa [processQuestions] using h

theorem processQuestions_nil (answerOne : String → String) (batchSize : Nat) :
    processQuestions answerOne [] batchSize = [] := by
  simp [processQuestions, rangeStep_stop 0 0 batchSize (by omega)]

theorem takeWhile_all (p : Char → Bool) (l : List Char)
    (h : ∀ x ∈ l, p x = true) :
    l.takeWhile p = l := by
  induction l with
  | nil => rfl
  | cons x xs ih =>
    simp only [List.takeWhile, h x (by simp)]
    rw [ih (fun y hy => h y (by simp [hy]))]

theorem takeWhile_append_stop (p : Char → Bool) (l m : List Char) (c : Char)
    (hl : ∀ x ∈ l, p x = true) (hc : p c = false) :
    (l ++ c :: m).takeWhile p = l := by
  induction l with
  | nil => simp [List.takeWhile, hc]
  | cons x xs ih =>
    simp only [List.cons_append, List.takeWhile, List.append_eq, hl x (by simp)]
    rw [ih (fun y hy => hl y (by simp [hy]))]

theorem data_append (a b : String) : (a ++ b).data = a.data ++ b.data := by
  cases a
  cases b
  rfl

theorem timeout_always_30 (docUrl : String) (env : FetchEnv) :
    (processDocumentFromUrl docUrl env).timeout = 30 := by
  obtain ⟨dl, parse⟩ := env
  cases dl with
  | netError m => rfl
  | response s et =>
    cases hb : raiseForStatus s with
    | true => simp [processDocumentFromUrl, hb]
    | false =>
      cases hcl : chooseLoader (getFileExtension docUrl) with
      | error m => simp [processDocumentFromUrl, hb, hcl]
      | ok l =>
        cases parse with
        | error m => simp [processDocumentFromUrl, hb, hcl]
        | ok ds => simp [processDocumentFromUrl, hb, hcl]

/-! ### Concrete sample data used by witnesses -/

/-- A concrete vector store for witness instantiations. -/
def sampleStore : VectorStore := ⟨0⟩

/-- A one-entry cache for witness instantiations. -/
def sampleCache : Cache := [("https://example.com/doc.pdf", some sampleStore)]

/-- A concrete request environment whose fetch fails with a network error. -/
def sampleEnv : AppEnv :=
  { fetch := { download := .netError "net down", parse := .ok [] },
    build := .ok ⟨1⟩,
    chain := fun _ => .returned (some "answer") }

/-- A concrete request environment whose fetch succeeds with zero chunks. -/
def sampleEnvEmptyDoc : AppEnv :=
  { fetch := { download := .response 200 "", parse := .ok [] },
    build := .ok ⟨2⟩,
    chain := fun _ => .returned none }

/-! ### Claims -/

/-- Claim C1: whenever the handler replies 200, the `answers` list is exactly
the input question list mapped through the answer engine — one answer per
question, in input order — and a 51-question list is processed as the two
sequential batches starting at offsets 0 and 50. -/
theorem claim_C1_one_answer_per_question (cache : Cache) (docUrl : String)
    (questions : List String) (env : AppEnv)
    (h200 : (processQuestionsFromPdf cache docUrl questions env).reply.status = 200) :
    ∃ vs, (processQuestionsFromPdf cache docUrl questions env).reply.answers
        = some (questions.map (fun q => getAnswer vs q (env.chain q)))
      ∧ (questions.length = 51 → rangeStep 0 questions.length 50 = [0, 50]) := by
  have two51 : rangeStep 0 51 50 = [0, 50] := by
    rw [rangeStep_cons 0 51 50 (by omega) (by omega),
      rangeStep_cons 50 51 50 (by omega) (by omega),
      rangeStep_stop 100 51 50 (by omega)]
  cases hc : cacheLookup cache docUrl with
  | some vs =>
    refine ⟨vs, ?_, fun h51 => by rw [h51]; exact two51⟩
    simp [processQuestionsFromPdf, hc,
      processQuestions_eq_map (fun q => getAnswer vs q (env.chain q)) questions 50
        (by omega)]
  | none =>
    cases hf : (processPdfFromUrl docUrl env.fetch).result with
    | error e => simp [processQuestionsFromPdf, hc, hf] at h200
    | ok documents =>
      cases hd : documents.isEmpty with
      | true => simp [processQuestionsFromPdf, hc, hf, hd] at h200
      | false =>
        cases hb : createVectorStore documents env.build with
        | error e => simp [processQuestionsFromPdf, hc, hf, hd, hb] at h200
        | ok vsOpt =>
          refine ⟨vsOpt, ?_, fun h51 => by rw [h51]; exact two51⟩
          simp [processQuestionsFromPdf, hc, hf, hd, hb,
            processQuestions_eq_map (fun q => getAnswer vsOpt q (env.chain q))
              questions 50 (by omega)]

/-- Witness for C1: a cache hit with 51 questions yields the mapped answer
list and the two-batch split. -/
theorem claim_C1_witness :
    ∃ vs, (processQuestionsFromPdf sampleCache "https://example.com/doc.pdf"
            (List.replicate 51 "q") sampleEnv).reply.answers
        = some ((List.replicate 51 "q").map
            (fun q => getAnswer vs q (sampleEnv.chain q)))
      ∧ ((List.replicate 51 "q").length = 51 →
          rangeStep 0 (List.replicate 51 "q").length 50 = [0, 50]) :=
  claim_C1_one_answer_per_question sampleCache "https://example.com/doc.pdf"
    (List.replicate 51 "q") sampleEnv rfl

/-- Claim C2: when the document URL is already cached, the handler performs
no fetch and no index build and leaves the cache unchanged. -/
theorem claim_C2_cache_hit_short_circuit (cache : Cache) (docUrl : String)
    (questions : List String) (env : AppEnv) (vs : Option VectorStore)
    (h : cacheLookup cache docUrl = some vs) :
    (processQuestionsFromPdf cache docUrl questions env).fetchCalls = 0
    ∧ (processQuestionsFromPdf cache docUrl questions env).buildCalls = 0
    ∧ (processQuestionsFromPdf cache docUrl questions env).cache = cache := by
  simp [processQuestionsFromPdf, h]

/-- Witness for C2: a concrete cached URL is served with zero fetcher and
builder invocations. -/
theorem claim_C2_witness :
    (processQuestionsFromPdf sampleCache "https://example.com/doc.pdf" ["q1"]
        sampleEnv).fetchCalls = 0
    ∧ (processQuestionsFromPdf sampleCache "https://example.com/doc.pdf" ["q1"]
        sampleEnv).buildCalls = 0
    ∧ (processQuestionsFromPdf sampleCache "https://example.com/doc.pdf" ["q1"]
        sampleEnv).cache = sampleCache :=
  claim_C2_cache_hit_short_circuit sampleCache "https://example.com/doc.pdf"
    ["q1"] sampleEnv (some sampleStore) rfl

/-- Claim C3: with a vector store present, any exception raised by the
retrieval-generation chain is returned as the answer string
`"Error processing question: <details>"`; `getAnswer` is a total function,
so no exception propagates out of the answer engine. -/
theorem claim_C3_engine_error_as_answer (vs : VectorStore) (question e : String) :
    getAnswer (some vs) question (.raised e) = "Error processing question: " ++ e :=
  rfl

/-- Claim C4 counterexample: with an absent vector store the engine does not
return the claimed sentinel `"Vector store is not available."`; it returns
`"Error: Vector store is not available."`. -/
theorem claim_C4_counterexample :
    getAnswer none "q" (ChainOutcome.returned (some "text"))
        ≠ "Vector store is not available."
    ∧ getAnswer none "q" (ChainOutcome.returned (some "text"))
        = "Error: Vector store is not available." :=
  ⟨by decide, rfl⟩

/-- Claim C4 (amended): for every question and every chain outcome, an absent
vector store makes `getAnswer` return exactly
`"Error: Vector store is not available."`. -/
theorem claim_C4_amended (question : String) (outcome : ChainOutcome) :
    getAnswer none question outcome = "Error: Vector store is not available." :=
  rfl

/-- Claim C5: a cache-miss request whose fetch yields zero chunks is answered
with HTTP status 400, and `create_vector_store` returns `None` for an empty
chunk list whatever the FAISS build outcome would be. -/
theorem claim_C5_empty_chunks_400 (cache : Cache) (docUrl : String)
    (questions : List String) (env : AppEnv)
    (hmiss : cacheLookup cache docUrl = none)
    (hempty : (processPdfFromUrl docUrl env.fetch).result = .ok []) :
    (processQuestionsFromPdf cache docUrl questions env).reply.status = 400
    ∧ ∀ build, createVectorStore [] build = .ok none := by
  refine ⟨?_, fun build => rfl⟩
  simp [processQuestionsFromPdf, hmiss, hempty]

/-- Witness for C5: a concrete uncached URL whose document parses to zero
chunks produces a 400 reply. -/
theorem claim_C5_witness :
    (processQuestionsFromPdf [] "https://example.com/empty.pdf" ["q"]
        sampleEnvEmptyDoc).reply.status = 400
    ∧ ∀ build, createVectorStore [] build = .ok none :=
  claim_C5_empty_chunks_400 [] "https://example.com/empty.pdf" ["q"]
    sampleEnvEmptyDoc rfl rfl

theorem no_qmark_all (u : String) (hq : '?' ∉ u.data) :
    ∀ x ∈ u.data, (x != '?') = true := by
  intro x hx
  simp only [bne_iff_ne, ne_eq]
  intro he
  exact hq (he ▸ hx)

theorem stripQuery_no_query (u : String) (hq : '?' ∉ u.data) :
    stripQuery u = u.data :=
  takeWhile_all _ _ (no_qmark_all u hq)

theorem stripQuery_with_query (u q : String) (hq : '?' ∉ u.data) :
    stripQuery (u ++ "?" ++ q) = u.data := by
  have hdata : (u ++ "?" ++ q).data = u.data ++ '?' :: q.data := by
    rw [data_append, data_append, List.append_assoc]
    rfl
  unfold stripQuery
  rw [hdata]
  exact takeWhile_append_stop _ _ _ _ (no_qmark_all u hq) rfl

/-- Claim C6: the extension used by `DocumentProcessor.process_document_from_url`
to select the loader is computed on the URL with its query string stripped;
`.pdf` selects `PyPDFLoader` and `.doc`/`.docx` select
`UnstructuredWordDocumentLoader`; for any other extension a fetch whose
download succeeded fails with the `ValueError` for an unsupported file type
and never reaches `loader.load()`. -/
theorem claim_C6_extension_dispatch (u q docUrl : String) (env : FetchEnv)
    (s : Nat) (et : String)
    (hq : '?' ∉ u.data)
    (hdl : env.download = .response s et)
    (hok : ¬ (400 ≤ s ∧ s < 600))
    (hns : getFileExtension docUrl ≠ ".pdf" ∧ getFileExtension docUrl ≠ ".doc"
        ∧ getFileExtension docUrl ≠ ".docx") :
    getFileExtension (u ++ "?" ++ q) = getFileExtension u
    ∧ chooseLoader ".pdf" = .ok .pyPDFLoader
    ∧ chooseLoader ".doc" = .ok .unstructuredWordDocumentLoader
    ∧ chooseLoader ".docx" = .ok .unstructuredWordDocumentLoader
    ∧ (processDocumentFromUrl docUrl env).result
        = .error (.valueError ("Unsupported file type: " ++ getFileExtension docUrl))
    ∧ (processDocumentFromUrl docUrl env).parseAttempted = false := by
  have hr : raiseForStatus s = false := decide_eq_false hok
  have hcl : chooseLoader (getFileExtension docUrl)
      = .error ("Unsupported file type: " ++ getFileExtension docUrl) := by
    unfold chooseLoader
    rw [if_neg hns.1, if_neg]
    rintro (h1 | h2)
    · exact hns.2.1 h1
    · exact hns.2.2 h2
  refine ⟨?_, rfl, rfl, rfl, ?_, ?_⟩
  · unfold getFileExtension
    rw [stripQuery_with_query u q hq, stripQuery_no_query u hq]
  · simp [processDocumentFromUrl, hdl, hr, hcl]
  · simp [processDocumentFromUrl, hdl, hr, hcl]

/-- Witness for C6: a query string does not change the extension; a concrete
`.txt` URL whose download returned 200 fails with the unsupported-type error
without attempting extraction. -/
theorem claim_C6_witness :
    getFileExtension ("http://h/a" ++ "?" ++ "x=1") = getFileExtension "http://h/a"
    ∧ chooseLoader ".pdf" = .ok .pyPDFLoader
    ∧ chooseLoader ".doc" = .ok .unstructuredWordDocumentLoader
    ∧ chooseLoader ".docx" = .ok .unstructuredWordDocumentLoader
    ∧ (processDocumentFromUrl "http://h/f.txt"
        ⟨.response 200 "", .ok []⟩).result
        = .error (.valueError
            ("Unsupported file type: " ++ getFileExtension "http://h/f.txt"))
    ∧ (processDocumentFromUrl "http://h/f.txt"
        ⟨.response 200 "", .ok []⟩).parseAttempted = false :=
  claim_C6_extension_dispatch "http://h/a" "x=1" "http://h/f.txt"
    ⟨.response 200 "", .ok []⟩ 200 "" (by decide) rfl (by omega)
    ⟨by decide, by decide, by decide⟩

/-- Claim C7: on a cache miss, the handler leaves the cache mapping unchanged
when the fetch raises or the index build raises; and a request never removes
an existing cache entry (every previously cached URL is still cached
afterwards). -/
theorem claim_C7_insert_only_on_success (cache : Cache) (docUrl : String)
    (questions : List String) (env : AppEnv) :
    (cacheLookup cache docUrl = none →
      ((∃ e, (processPdfFromUrl docUrl env.fetch).result = .error e)
        ∨ (∃ docs, (processPdfFromUrl docUrl env.fetch).result = .ok docs
            ∧ docs.isEmpty = false ∧ ∃ e, env.build = .error e)) →
      (processQuestionsFromPdf cache docUrl questions env).cache = cache)
    ∧ ∀ k v, cacheLookup cache k = some v →
        ∃ v2, cacheLookup (processQuestionsFromPdf cache docUrl questions env).cache k
            = some v2 := by
  constructor
  · intro hmiss hfail
    rcases hfail with ⟨e, he⟩ | ⟨docs, hdocs, hne, e, he⟩
    · simp [processQuestionsFromPdf, hmiss, he]
    · have hb : createVectorStore docs env.build
          = .error ("Failed to create FAISS vector store. Error: " ++ e) := by
        unfold createVectorStore
        rw [if_neg (by simp [hne]), he]
      simp [processQuestionsFromPdf, hmiss, hdocs, hne, hb]
  · intro k v hkv
    cases hc : cacheLookup cache docUrl with
    | some vs => exact ⟨v, by simpa [processQuestionsFromPdf, hc] using hkv⟩
    | none =>
      cases hf : (processPdfFromUrl docUrl env.fetch).result with
      | error e => exact ⟨v, by simpa [processQuestionsFromPdf, hc, hf] using hkv⟩
      | ok documents =>
        cases hd : documents.isEmpty with
        | true =>
          exact ⟨v, by simpa [processQuestionsFromPdf, hc, hf, hd] using hkv⟩
        | false =>
          cases hb : createVectorStore documents env.build with
          | error e =>
            exact ⟨v, by simpa [processQuestionsFromPdf, hc, hf, hd, hb] using hkv⟩
          | ok vsOpt =>
            by_cases hk : k = docUrl
            · exact ⟨vsOpt, by
                simp [processQuestionsFromPdf, hc, hf, hd, hb, cacheInsert,
                  cacheLookup, hk]⟩
            · refine ⟨v, ?_⟩
              simp only [processQuestionsFromPdf, hc, hf, hd, hb, cacheInsert,
                cacheLookup]
              rw [if_neg hk]
              exact hkv

/-- Witness for C7: a failing fetch on a cache miss leaves a concrete
one-entry cache unchanged, and the existing entry is still present. -/
theorem claim_C7_witness :
    (processQuestionsFromPdf sampleCache "https://example.com/other.pdf" ["q"]
        sampleEnv).cache = sampleCache
    ∧ ∃ v2, cacheLookup (processQuestionsFromPdf sampleCache
        "https://example.com/other.pdf" ["q"] sampleEnv).cache
        "https://example.com/doc.pdf" = some v2 :=
  ⟨(claim_C7_insert_only_on_success sampleCache "https://example.com/other.pdf"
      ["q"] sampleEnv).1 rfl (Or.inl ⟨_, rfl⟩),
    (claim_C7_insert_only_on_success sampleCache "https://example.com/other.pdf"
      ["q"] sampleEnv).2 "https://example.com/doc.pdf" (some sampleStore) rfl⟩

/-- Claim C8: the temporary file no longer exists when either fetch variant
returns or raises — on a failed download it was never created, and on every
path after creation the `finally` block removes it. -/
theorem claim_C8_temp_file_removed (docUrl : String) (env : FetchEnv) :
    (processDocumentFromUrl docUrl env).fs.tempExists = false
    ∧ (processPdfFromUrl docUrl env).fs.tempExists = false := by
  obtain ⟨dl, parse⟩ := env
  constructor
  · cases dl with
    | netError m => rfl
    | response s et =>
      cases hb : raiseForStatus s with
      | true => simp [processDocumentFromUrl, hb, cleanupTemp, noTempFile]
      | false =>
        cases hcl : chooseLoader (getFileExtension docUrl) with
        | error m =>
          simp [processDocumentFromUrl, hb, hcl, cleanupTemp, tempFileWritten]
        | ok l =>
          cases parse with
          | error m =>
            simp [processDocumentFromUrl, hb, hcl, cleanupTemp, tempFileWritten]
          | ok ds =>
            simp [processDocumentFromUrl, hb, hcl, cleanupTemp, tempFileWritten]
  · cases dl with
    | netError m => rfl
    | response s et =>
      cases hb : raiseForStatus s with
      | true => simp [processPdfFromUrl, hb, cleanupTemp, noTempFile]
      | false =>
        cases parse with
        | error m => simp [processPdfFromUrl, hb, cleanupTemp, tempFileWritten]
        | ok ds => simp [processPdfFromUrl, hb, cleanupTemp, tempFileWritten]

/-- A fetch environment whose final response has status 304 Not Modified —
a non-2xx status that `raise_for_status` does not raise for. -/
def env304 : FetchEnv := { download := .response 304 "", parse := .ok ["chunk"] }

/-- Claim C9 counterexample: it is not the case that every non-2xx response
makes the fetch fail — with final status 304 the fetch proceeds to parsing
and returns the parsed chunks. -/
theorem claim_C9_counterexample :
    (¬ ∀ (docUrl : String) (env : FetchEnv) (s : Nat) (et : String),
        env.download = .response s et → ¬ (200 ≤ s ∧ s < 300) →
        ∃ m, (processDocumentFromUrl docUrl env).result
            = .error (.runtimeError m))
    ∧ (processDocumentFromUrl "http://h/a.pdf" env304).result = .ok ["chunk"]
    ∧ (processDocumentFromUrl "http://h/a.pdf" env304).parseAttempted = true := by
  refine ⟨?_, rfl, rfl⟩
  intro h
  obtain ⟨m, hm⟩ := h "http://h/a.pdf" env304 304 "" rfl (by omega)
  rw [show (processDocumentFromUrl "http://h/a.pdf" env304).result
      = .ok ["chunk"] from rfl] at hm
  exact Except.noConfusion hm

/-- Claim C9 (amended): the download always carries a 30-second timeout, and
every final response with a 4xx/5xx status makes the fetch fail with the
re-raised download `RuntimeError` before parsing is attempted. -/
theorem claim_C9_amended (docUrl : String) (env : FetchEnv) (s : Nat) (et : String)
    (hdl : env.download = .response s et) (h4 : 400 ≤ s) (h6 : s < 600) :
    (processDocumentFromUrl docUrl env).timeout = 30
    ∧ (processDocumentFromUrl docUrl env).result
        = .error (.runtimeError
            ("Failed to download document from URL: " ++ docUrl ++ ". Error: " ++ et))
    ∧ (processDocumentFromUrl docUrl env).parseAttempted = false
    ∧ ∀ env2, (processDocumentFromUrl docUrl env2).timeout = 30 := by
  have hr : raiseForStatus s = true := decide_eq_true ⟨h4, h6⟩
  refine ⟨timeout_always_30 docUrl env, ?_, ?_, fun env2 => timeout_always_30 docUrl env2⟩
  · simp [processDocumentFromUrl, hdl, hr]
  · simp [processDocumentFromUrl, hdl, hr]

/-- A fetch environment whose final response is a 404. -/
def env404 : FetchEnv :=
  { download := .response 404 "404 Client Error", parse := .ok ["chunk"] }

/-- Witness for the amended C9: a concrete 404 response fails with the
download error, parsing is not attempted, and the timeout is 30 seconds. -/
theorem claim_C9_witness :
    (processDocumentFromUrl "http://h/a.pdf" env404).timeout = 30
    ∧ (processDocumentFromUrl "http://h/a.pdf" env404).result
        = .error (.runtimeError
            ("Failed to download document from URL: " ++ "http://h/a.pdf"
              ++ ". Error: " ++ "404 Client Error"))
    ∧ (processDocumentFromUrl "http://h/a.pdf" env404).parseAttempted = false
    ∧ ∀ env2, (processDocumentFromUrl "http://h/a.pdf" env2).timeout = 30 :=
  claim_C9_amended "http://h/a.pdf" env404 404 "404 Client Error" rfl
    (by omega) (by omega)

/-- Claim C10: a request with an empty question list whose document pipeline
succeeds is answered 200 with an empty answers list; the batching loop runs
zero batches and applies the answer engine to no question. -/
theorem claim_C10_empty_question_list (cache : Cache) (docUrl : String)
    (env : AppEnv) (h : pipelineSucceeds cache docUrl env) :
    (processQuestionsFromPdf cache docUrl [] env).reply.status = 200
    ∧ (processQuestionsFromPdf cache docUrl [] env).reply.answers = some []
    ∧ rangeStep 0 (List.length ([] : List String)) 50 = []
    ∧ ∀ answerOne, processQuestions answerOne [] 50 = [] := by
  have hz : rangeStep 0 (List.length ([] : List String)) 50 = [] :=
    rangeStep_stop 0 0 50 (by omega)
  have hp : ∀ answerOne : String → String, processQuestions answerOne [] 50 = [] :=
    fun a => processQuestions_nil a 50
  cases hc : cacheLookup cache docUrl with
  | some vs =>
    refine ⟨?_, ?_, hz, hp⟩ <;> simp [processQuestionsFromPdf, hc, hp]
  | none =>
    rcases h with ⟨vs, hvs⟩ | ⟨docs, hdocs, hne, v, hv⟩
    · rw [hc] at hvs
      exact Option.noConfusion hvs
    · have hd : docs.isEmpty = false := by
        cases docs with
        | nil => exact absurd rfl hne
        | cons a l => rfl
      have hb : createVectorStore docs env.build = .ok (some v) := by
        unfold createVectorStore
        rw [if_neg (by simp [hd]), hv]
      refine ⟨?_, ?_, hz, hp⟩ <;>
        simp [processQuestionsFromPdf, hc, hdocs, hd, hb, hp]

/-- Witness for C10: an empty question list against a concrete cached URL
yields a 200 reply with an empty answers list. -/
theorem claim_C10_witness :
    (processQuestionsFromPdf sampleCache "https://example.com/doc.pdf" []
        sampleEnv).reply.status = 200
    ∧ (processQuestionsFromPdf sampleCache "https://example.com/doc.pdf" []
        sampleEnv).reply.answers = some []
    ∧ rangeStep 0 (List.length ([] : List String)) 50 = []
    ∧ ∀ answerOne, processQuestions answerOne [] 50 = [] :=
  claim_C10_empty_question_list sampleCache "https://example.com/doc.pdf"
    sampleEnv (Or.inl ⟨some sampleStore, rfl⟩)

end ChatbotHack
